import Mathlib

/-!
Verification of the FRA WebGIS in-memory filtering-and-aggregation engine
(`app_fra_webgis.py`).  The Python `FRAWebGISManager` holds a pandas
DataFrame of claim records loaded from a GeoJSON feature collection; the
definitions below embed the record rows, the filter engine, the grouped
rollups, the timeline rollup, the performance metrics and the route-level
wrappers as executable Lean functions.

Modelling conventions:
* a pandas `NaN`/missing cell is `Option.none`; JSON strings are `String`,
  numbers are `ℚ`;
* `submission_date` is carried abstractly as `DateV`: a parseable date
  keeps its calendar year and month (what `pd.to_datetime(...).dt.year`
  and `.dt.month` extract), an unparseable string is `DateV.invalid`
  (on which `pd.to_datetime` raises because `errors` defaults to raise);
* Python `float(s)` on a plain decimal literal is `parseFloat`
  (`none` = `ValueError`);
* methods that assign to `self.df` are modelled as returning the new row
  list; route handlers are functions `Store → result × Store`.
-/

/-- Abstract value of the `submission_date` property: a parseable date
string with its calendar year and month, or an unparseable raw string. -/
inductive DateV where
  | valid (year month : Nat)
  | invalid (raw : String)
  deriving DecidableEq

/-- The non-geometry properties of one GeoJSON feature, i.e. the columns
of the DataFrame built in `load_data` (minus the injected `geometry`
column).  `claim_id` is the unique identifier required by the data model;
the six filterable string fields and the numeric/date fields may be
missing (pandas `NaN`). -/
structure Props where
  claim_id : String
  state : Option String
  district : Option String
  village : Option String
  fra_type : Option String
  status : Option String
  tribal_community : Option String
  claim_area_ha : Option ℚ
  submission_date : Option DateV
  field_verification_done : Bool
  gps_coordinates_verified : Bool
  deriving DecidableEq

/-- One row of `self.df`: the flattened feature properties plus the
`geometry` column (opaque to the engine, modelled as a plain string) and
the two derived date columns, which do not exist at load time
(`none`) and are filled in by `get_timeline_analysis`. -/
structure Record extends Props where
  geometry : String
  submission_year : Option Nat := none
  submission_month : Option Nat := none
  deriving DecidableEq

/-- One feature of the input GeoJSON collection: a properties map and a
geometry object. -/
structure Feature where
  properties : Props
  geometry : String
  deriving DecidableEq

/-- Flattening performed by `load_data`: `props = feature.properties.copy();
props['geometry'] = feature.geometry`. -/
def featureToRow (f : Feature) : Record :=
  { f.properties with geometry := f.geometry }

/-- The statistics blob (`analytics_data`): an opaque JSON object, carried
as key-value pairs.  The engine never interprets it. -/
def Analytics := List (String × String)

instance : DecidableEq Analytics := by
  unfold Analytics
  infer_instance

/-- The manager state relevant to the queries: the decoded rows
(`self.df`) and the statistics blob (`self.analytics_data`). -/
structure Store where
  rows : List Record
  analytics : Analytics
  deriving DecidableEq

/-- The fallback state installed by `load_data` on any exception: an empty
feature collection and an empty statistics blob. -/
def emptyStore : Store := { rows := [], analytics := [] }

/-- Embedding of `load_data`: the two file reads and the DataFrame build
are presented as already-parsed `Except` inputs (an `Except.error` stands
for a missing, unreadable or malformed file).  The geojson file is read
first, so its failure shadows the analytics file.  The second component is
the log line printed by the `except` handler (`none` = nothing logged). -/
def loadData (g : Except String (List Feature)) (a : Except String Analytics) :
    Store × Option String :=
  match g with
  | .error e => (emptyStore, some ("Error loading FRA data: " ++ e))
  | .ok feats =>
    match a with
    | .error e => (emptyStore, some ("Error loading FRA data: " ++ e))
    | .ok an => ({ rows := feats.map featureToRow, analytics := an }, none)

/-- A filter mapping as passed to `get_filtered_claims`: keys to values,
where a value may be `None` (`Option.none`).  Values are strings, as
produced by the HTTP query-parameter layer. -/
abbrev Filters := List (String × Option String)

/-- Dictionary membership: the value stored under `k`, if the key is
present at all. -/
def fGet (fs : Filters) (k : String) : Option (Option String) :=
  (fs.find? (fun p => p.1 = k)).map Prod.snd

/-- The Python guard `k in filters and filters[k]`: the key must be
present and its value truthy (not `None`, not the empty string).  Returns
the value when the criterion is active. -/
def fActive (fs : Filters) (k : String) : Option String :=
  match fGet fs k with
  | some (some v) => if v = "" then none else some v
  | _ => none

/-- Numeric value of a list of decimal digit characters (`none` on a
non-digit).  The empty list evaluates to `0`; callers reject the cases
where Python would. -/
def digitsVal (cs : List Char) : Option Nat :=
  cs.foldlM (fun acc c => if c.isDigit then some (acc * 10 + (c.toNat - 48)) else none) 0

/-- Python `float(s)` on plain decimal literals: optional surrounding
whitespace, optional sign, digits with an optional single decimal point
(at least one digit overall).  `none` models the `ValueError` raised on a
non-numeric string. -/
def parseFloat (s : String) : Option ℚ :=
  let cs := ((s.toList.dropWhile (fun c => c.isWhitespace)).reverse.dropWhile
    (fun c => c.isWhitespace)).reverse
  let sgn : ℚ := match cs with
    | '-' :: _ => -1
    | _ => 1
  let body := match cs with
    | '-' :: rest => rest
    | '+' :: rest => rest
    | _ => cs
  let ip := body.takeWhile (fun c => c ≠ '.')
  match body.dropWhile (fun c => c ≠ '.') with
  | [] =>
    if ip.isEmpty then none
    else (digitsVal ip).map (fun n => sgn * (n : ℚ))
  | _ :: fp =>
    if fp.contains '.' then none
    else if ip.isEmpty && fp.isEmpty then none
    else
      match digitsVal ip, digitsVal fp with
      | some i, some f => some (sgn * ((i : ℚ) + (f : ℚ) / (10 : ℚ) ^ fp.length))
      | _, _ => none

/-- The `ValueError` message of Python `float` on a bad literal. -/
def floatErr (v : String) : String := "could not convert string to float: " ++ v

/-- One equality filter step, `filtered_df = filtered_df[filtered_df[col] == v]`,
guarded by `fActive`.  A missing cell (`NaN`) never equals a string, so
such rows are dropped when the criterion is active. -/
def applyStrFilter (df : List Record) (fs : Filters) (k : String)
    (get : Record → Option String) : List Record :=
  match fActive fs k with
  | some v => df.filter (fun r => decide (get r = some v))
  | none => df

/-- The row test of `filtered_df['claim_area_ha'] >= min_area`: `NaN`
compares false. -/
def areaGeMin (m : ℚ) (r : Record) : Bool :=
  match r.claim_area_ha with
  | some a => decide (m ≤ a)
  | none => false

/-- The row test of `filtered_df['claim_area_ha'] <= max_area`: `NaN`
compares false. -/
def areaLeMax (m : ℚ) (r : Record) : Bool :=
  match r.claim_area_ha with
  | some a => decide (a ≤ m)
  | none => false

/-- The `claim_area_min` step: parse the bound with `float` (which may
raise) and keep the rows at or above it. -/
def applyAreaMin (df : List Record) (fs : Filters) : Except String (List Record) :=
  match fActive fs "claim_area_min" with
  | some v =>
    match parseFloat v with
    | some m => .ok (df.filter (areaGeMin m))
    | none => .error (floatErr v)
  | none => .ok df

/-- The `claim_area_max` step: parse the bound with `float` (which may
raise) and keep the rows at or below it. -/
def applyAreaMax (df : List Record) (fs : Filters) : Except String (List Record) :=
  match fActive fs "claim_area_max" with
  | some v =>
    match parseFloat v with
    | some m => .ok (df.filter (areaLeMax m))
    | none => .error (floatErr v)
  | none => .ok df

/-- The filter block of `get_filtered_claims`, lines 65-91: the six
equality filters in source order followed by the two range filters.
Only these eight keys are consulted; any other key in the mapping is
never read. -/
def applyFilters (df : List Record) (fs : Filters) : Except String (List Record) := do
  let d1 := applyStrFilter df fs "state" (fun r => r.state)
  let d2 := applyStrFilter d1 fs "district" (fun r => r.district)
  let d3 := applyStrFilter d2 fs "village" (fun r => r.village)
  let d4 := applyStrFilter d3 fs "fra_type" (fun r => r.fra_type)
  let d5 := applyStrFilter d4 fs "status" (fun r => r.status)
  let d6 := applyStrFilter d5 fs "tribal_community" (fun r => r.tribal_community)
  let d7 ← applyAreaMin d6 fs
  applyAreaMax d7 fs

/-- The metadata block injected into the returned feature collection. -/
structure FCMeta where
  total_claims : Nat
  filters_applied : Filters
  deriving DecidableEq

/-- The value returned by `get_filtered_claims`: the matching rows
re-serialized as features, and the injected `properties` metadata block,
which the early return for an empty DataFrame omits (`none`).  The
per-row NaN-cleaning loop maps missing cells to JSON `null`, which is the
identity here because missing cells are already `Option.none`; each
feature keeps its `geometry` unchanged. -/
structure FCResult where
  features : List Record
  meta : Option FCMeta
  deriving DecidableEq

/-- Embedding of `get_filtered_claims`: empty DataFrame short-circuits to
a bare empty collection (before any filter value is examined); otherwise
the filter chain runs and its `ValueError` propagates to the caller. -/
def getFilteredClaims (df : List Record) (fs : Filters) : Except String FCResult :=
  if df.isEmpty then .ok { features := [], meta := none }
  else
    (applyFilters df fs).map (fun rows =>
      { features := rows
        meta := some { total_claims := rows.length, filters_applied := fs } })

/-- Sum of the non-null `claim_area_ha` values of a row list: pandas
`sum` with its default `skipna`, which also turns an all-missing column
into `0.0`. -/
def areaSum (g : List Record) : ℚ := (g.filterMap (fun r => r.claim_area_ha)).sum

/-- The non-null `claim_area_ha` values, in row order (what pandas `sum`
and `mean` aggregate over). -/
def areaVals (df : List Record) : List ℚ := df.filterMap (fun r => r.claim_area_ha)

/-- One value of the per-group aggregation of `get_state_wise_summary` /
`get_tribal_community_analysis`. -/
structure RollupEntry where
  total_claims : Nat
  total_area_ha : ℚ
  approved_claims : Nat
  claims_by_type : List (String × Nat)
  deriving DecidableEq

/-- `value_counts().to_dict()` on the `fra_type` column of a group:
each occurring (non-null) type paired with its number of occurrences. -/
def typeCounts (g : List Record) : List (String × Nat) :=
  ((g.filterMap (fun r => r.fra_type)).dedup).map
    (fun t => (t, (g.filterMap (fun r => r.fra_type)).count t))

/-- The `agg` dictionary applied to one group: `claim_id` count (every
row carries a claim id, so this is the group size), `claim_area_ha` sum
with nulls skipped, approved count, and the per-type counts. -/
def rollupEntry (g : List Record) : RollupEntry :=
  { total_claims := g.length
    total_area_ha := areaSum g
    approved_claims := (g.filter (fun r => decide (r.status = some "approved"))).length
    claims_by_type := typeCounts g }

/-- pandas `groupby` on an attribute: one group per distinct non-null key
value (rows whose key is `NaN` belong to no group). -/
def groupBy (df : List Record) (key : Record → Option String) :
    List (String × List Record) :=
  ((df.filterMap key).dedup).map
    (fun v => (v, df.filter (fun r => decide (key r = some v))))

/-- Embedding of `get_state_wise_summary` (the empty-DataFrame early
return produces the same empty mapping as grouping nothing). -/
def getStateWiseSummary (df : List Record) : List (String × RollupEntry) :=
  (groupBy df (fun r => r.state)).map (fun p => (p.1, rollupEntry p.2))

/-- Embedding of `get_tribal_community_analysis`. -/
def getTribalCommunityAnalysis (df : List Record) : List (String × RollupEntry) :=
  (groupBy df (fun r => r.tribal_community)).map (fun p => (p.1, rollupEntry p.2))

/-- Embedding of `get_claim_details`: first row whose `claim_id` matches,
`none` on an empty DataFrame or a lookup miss. -/
def getClaimDetails (df : List Record) (cid : String) : Option Record :=
  if df.isEmpty then none
  else df.find? (fun r => decide (r.claim_id = cid))

/-- One year's entry of the yearly timeline rollup. -/
structure YearEntry where
  claims_submitted : Nat
  total_area_ha : ℚ
  claims_approved : Nat
  deriving DecidableEq

/-- One month's entry of the monthly timeline rollup. -/
structure MonthEntry where
  claims_submitted : Nat
  total_area_ha : ℚ
  deriving DecidableEq

/-- The value of `get_timeline_analysis`: the bare `{}` returned on an
empty DataFrame, or the two rollups. -/
inductive TLResp where
  | empty
  | data (yearly : List (Nat × YearEntry)) (monthly : List (Nat × MonthEntry))
  deriving DecidableEq

/-- A row on which `pd.to_datetime` raises: a present but unparseable
date string. -/
def isInvalidDate (r : Record) : Bool :=
  match r.submission_date with
  | some (.invalid _) => true
  | _ => false

/-- The error raised by `pd.to_datetime` on an unparseable date string
(`errors` defaults to raising). -/
def dateErr : String := "Unknown datetime string format"

/-- The column assignments of lines 201-203: a parseable date fills the
derived year/month columns, a missing date leaves them null (`NaT.year`
is `NaN`). -/
def addDateCols (r : Record) : Record :=
  match r.submission_date with
  | some (.valid y m) => { r with submission_year := some y, submission_month := some m }
  | _ => { r with submission_year := none, submission_month := none }

/-- The yearly `groupby('submission_year')` aggregation: null years fall
out of the grouping; per year a count, a null-skipping area sum and an
approved count. -/
def yearlyRollup (df : List Record) : List (Nat × YearEntry) :=
  ((df.filterMap (fun r => r.submission_year)).dedup).map (fun y =>
    let g := df.filter (fun r => decide (r.submission_year = some y))
    (y, { claims_submitted := g.length
          total_area_ha := areaSum g
          claims_approved := (g.filter (fun r => decide (r.status = some "approved"))).length }))

/-- The monthly aggregation: restrict to the current calendar year, then
`groupby('submission_month')`. -/
def monthlyRollup (df : List Record) (currentYear : Nat) : List (Nat × MonthEntry) :=
  let dfy := df.filter (fun r => decide (r.submission_year = some currentYear))
  ((dfy.filterMap (fun r => r.submission_month)).dedup).map (fun m =>
    let g := dfy.filter (fun r => decide (r.submission_month = some m))
    (m, { claims_submitted := g.length, total_area_ha := areaSum g }))

/-- Embedding of `get_timeline_analysis`.  The method assigns the
converted date column and the two derived columns back onto `self.df`,
so it returns the new row list alongside the result; `pd.to_datetime`
raises before any assignment if some present date is unparseable.
`currentYear` stands for `datetime.now().year`. -/
def getTimelineAnalysis (df : List Record) (currentYear : Nat) :
    Except String TLResp × List Record :=
  if df.isEmpty then (.ok .empty, df)
  else if df.any isInvalidDate then (.error dateErr, df)
  else
    let df2 := df.map addDateCols
    (.ok (.data (yearlyRollup df2) (monthlyRollup df2 currentYear)), df2)

/-- The ten-field dictionary built by `get_performance_metrics`.
`average_claim_size_ha` is `none` when the mean has no non-null input
(pandas mean of an all-null column is `NaN`). -/
structure PerfMetrics where
  total_claims : Nat
  approved_claims : Nat
  pending_claims : Nat
  rejected_claims : Nat
  approval_rate : ℚ
  pending_rate : ℚ
  total_area_ha : ℚ
  average_claim_size_ha : Option ℚ
  field_verification_rate : ℚ
  gps_verification_rate : ℚ
  deriving DecidableEq

/-- The value of `get_performance_metrics`: the bare `{}` returned on an
empty DataFrame, or the ten-field structure. -/
inductive PerfResult where
  | empty
  | metrics (m : PerfMetrics)
  deriving DecidableEq

/-- Python `round(x, 2)`: round to two decimal places, as
`⌊x * 100 + 1/2⌋ / 100` (ties on the half-cent are immaterial to every
theorem below). -/
def round2 (q : ℚ) : ℚ := ((q * 100 + 1 / 2).floor : ℚ) / 100

/-- Embedding of `get_performance_metrics`, including the
`if total_claims > 0` guards of the source (after the empty-DataFrame
early return they always take the positive branch). -/
def getPerformanceMetrics (df : List Record) : PerfResult :=
  if df.isEmpty then .empty
  else
    let total := df.length
    let approved := (df.filter (fun r => decide (r.status = some "approved"))).length
    let pending := (df.filter (fun r =>
      decide (r.status = some "submitted" ∨ r.status = some "under_review" ∨
        r.status = some "field_verification"))).length
    let rejected := (df.filter (fun r => decide (r.status = some "rejected"))).length
    .metrics
      { total_claims := total
        approved_claims := approved
        pending_claims := pending
        rejected_claims := rejected
        approval_rate := if 0 < total then round2 ((approved : ℚ) / (total : ℚ) * 100) else 0
        pending_rate := if 0 < total then round2 ((pending : ℚ) / (total : ℚ) * 100) else 0
        total_area_ha := round2 (areaVals df).sum
        average_claim_size_ha :=
          if (areaVals df).length = 0 then none
          else some (round2 ((areaVals df).sum / ((areaVals df).length : ℚ)))
        field_verification_rate :=
          if 0 < total then
            round2 (((df.filter (fun r => r.field_verification_done)).length : ℚ) / (total : ℚ) * 100)
          else 0
        gps_verification_rate :=
          if 0 < total then
            round2 (((df.filter (fun r => r.gps_coordinates_verified)).length : ℚ) / (total : ℚ) * 100)
          else 0 }

/-- The six per-field option lists of `/api/filter-options`. -/
structure FilterOptions where
  states : List String
  districts : List String
  villages : List String
  fra_types : List String
  statuses : List String
  tribal_communities : List String
  deriving DecidableEq

/-- The value of the filter-options route: the bare `{}` returned on an
empty DataFrame, or the six sorted lists. -/
inductive OptionsResp where
  | empty
  | options (o : FilterOptions)
  deriving DecidableEq

/-- `sorted(df[col].unique().tolist())`: the distinct values in first-
occurrence order, then sorted lexicographically. -/
def sortedUnique (l : List String) : List String :=
  (l.dedup).insertionSort (fun a b => a ≤ b)

/-- Embedding of the `get_filter_options` route body.  The model reads
the six columns as their non-null values; it is faithful on datasets
whose six string fields are all present (on a column mixing nulls and
strings the Python `sorted` call would raise instead). -/
def getFilterOptions (df : List Record) : OptionsResp :=
  if df.isEmpty then .empty
  else .options
    { states := sortedUnique (df.filterMap (fun r => r.state))
      districts := sortedUnique (df.filterMap (fun r => r.district))
      villages := sortedUnique (df.filterMap (fun r => r.village))
      fra_types := sortedUnique (df.filterMap (fun r => r.fra_type))
      statuses := sortedUnique (df.filterMap (fun r => r.status))
      tribal_communities := sortedUnique (df.filterMap (fun r => r.tribal_community)) }

/-- Method-call view of `get_filtered_claims`: the method never assigns
to `self`, so the store is returned unchanged. -/
def getFilteredClaimsS (s : Store) (fs : Filters) : Except String FCResult × Store :=
  (getFilteredClaims s.rows fs, s)

/-- Method-call view of `get_claim_details` (no assignment to `self`). -/
def getClaimDetailsS (s : Store) (cid : String) : Option Record × Store :=
  (getClaimDetails s.rows cid, s)

/-- Method-call view of `get_state_wise_summary` (no assignment to `self`). -/
def getStateWiseSummaryS (s : Store) : List (String × RollupEntry) × Store :=
  (getStateWiseSummary s.rows, s)

/-- Method-call view of `get_tribal_community_analysis` (no assignment to
`self`). -/
def getTribalCommunityAnalysisS (s : Store) : List (String × RollupEntry) × Store :=
  (getTribalCommunityAnalysis s.rows, s)

/-- Method-call view of `get_performance_metrics` (no assignment to
`self`). -/
def getPerformanceMetricsS (s : Store) : PerfResult × Store :=
  (getPerformanceMetrics s.rows, s)

/-- Route-call view of `get_filter_options` (reads `fra_manager.df`,
assigns nothing). -/
def getFilterOptionsS (s : Store) : OptionsResp × Store :=
  (getFilterOptions s.rows, s)

/-- Method-call view of `get_timeline_analysis`: the date-column
assignments land on `self.df`. -/
def getTimelineAnalysisS (s : Store) (currentYear : Nat) : Except String TLResp × Store :=
  let p := getTimelineAnalysis s.rows currentYear
  (p.1, { s with rows := p.2 })

/-- The eight query parameters read by the `/api/claims` and
`/api/export` routes. -/
structure QueryParams where
  state : Option String
  district : Option String
  village : Option String
  fra_type : Option String
  status : Option String
  tribal_community : Option String
  claim_area_min : Option String
  claim_area_max : Option String
  deriving DecidableEq

/-- The filters dictionary built by the routes, before cleaning. -/
def buildFilters (q : QueryParams) : Filters :=
  [("state", q.state), ("district", q.district), ("village", q.village),
   ("fra_type", q.fra_type), ("status", q.status),
   ("tribal_community", q.tribal_community),
   ("claim_area_min", q.claim_area_min), ("claim_area_max", q.claim_area_max)]

/-- The route-side cleaning `{k: v for k, v in filters.items() if v}`:
keep only keys with a truthy (present, non-empty) value. -/
def cleanFilters (fs : Filters) : Filters :=
  fs.filter (fun p => match p.2 with
    | some v => decide (v ≠ "")
    | none => false)

/-- A response of the `/api/claims` route: the serialized collection, or
the 500 error body produced by the `except` handler. -/
inductive ApiResp where
  | ok (fc : FCResult)
  | err (msg : String)
  deriving DecidableEq

/-- Embedding of the `get_claims` route handler: build and clean the
filter dictionary, call the manager, and convert any exception into the
request-level error body (the handler touches no state). -/
def getClaims (s : Store) (q : QueryParams) : ApiResp × Store :=
  match getFilteredClaims s.rows (cleanFilters (buildFilters q)) with
  | .ok fc => (.ok fc, s)
  | .error m => (.err ("Error loading claims: " ++ m), s)

/-- Specification-side reading of one equality criterion: if the key is
active its value must equal the record's field exactly; an inactive key
imposes no constraint. -/
def matchesKey (fs : Filters) (k : String) (fv : Option String) : Bool :=
  match fActive fs k with
  | some v => decide (fv = some v)
  | none => true

/-- Specification-side reading of the lower area bound: when active with
a numeric value, `claim_area_ha` must be at or above it (a record with a
null area fails).  A non-numeric bound makes the whole query error out,
so the value here is irrelevant then. -/
def areaMinOk (fs : Filters) (r : Record) : Bool :=
  match fActive fs "claim_area_min" with
  | some v =>
    match parseFloat v with
    | some m => areaGeMin m r
    | none => true
  | none => true

/-- Specification-side reading of the upper area bound. -/
def areaMaxOk (fs : Filters) (r : Record) : Bool :=
  match fActive fs "claim_area_max" with
  | some v =>
    match parseFloat v with
    | some m => areaLeMax m r
    | none => true
  | none => true

/-- A record satisfies a criteria mapping when it meets every active
criterion: the six exact string equalities and the two inclusive area
bounds, combined by logical AND. -/
def satisfiesCriteria (fs : Filters) (r : Record) : Bool :=
  matchesKey fs "state" r.state &&
  matchesKey fs "district" r.district &&
  matchesKey fs "village" r.village &&
  matchesKey fs "fra_type" r.fra_type &&
  matchesKey fs "status" r.status &&
  matchesKey fs "tribal_community" r.tribal_community &&
  areaMinOk fs r &&
  areaMaxOk fs r

/-- Specification-side description of one distinct-value list: sorted,
duplicate-free, and holding exactly the values occurring in the column. -/
def distinctSpec (vals : List String) (out : List String) : Prop :=
  out.Sorted (fun a b => a ≤ b) ∧ out.Nodup ∧ ∀ x, x ∈ out ↔ x ∈ vals

/-- A fully-populated sample record used to instantiate theorems with
hypotheses on concrete inputs. -/
def baseRecord : Record :=
  { claim_id := "FRA-001"
    state := some "X"
    district := some "D"
    village := some "V"
    fra_type := some "IFR"
    status := some "approved"
    tribal_community := some "T"
    claim_area_ha := some 2
    submission_date := some (.valid 2025 6)
    field_verification_done := true
    gps_coordinates_verified := true
    geometry := "geom" }

/-- Specification-side description of one grouped-rollup entry for group
value `v` under grouping key `key`: record count of the group, sum of the
non-null areas of the group, count of approved records of the group, and
per-`fra_type` occurrence counts of the group. -/
def entrySpec (df : List Record) (key : Record → Option String) (v : String)
    (e : RollupEntry) : Prop :=
  e.total_claims = (df.filter (fun r => decide (key r = some v))).length ∧
  e.total_area_ha
    = ((df.filter (fun r => decide (key r = some v))).filterMap
        (fun r => r.claim_area_ha)).sum ∧
  e.approved_claims
    = ((df.filter (fun r => decide (key r = some v))).filter
        (fun r => decide (r.status = some "approved"))).length ∧
  ∀ t n, (t, n) ∈ e.claims_by_type ↔
    ((∃ r, r ∈ df ∧ key r = some v ∧ r.fra_type = some t) ∧
     n = ((df.filter (fun r => decide (key r = some v))).filter
           (fun r => decide (r.fra_type = some t))).length)

/-- Two successive filter passes collapse into one pass testing the
conjunction, first pass on the left. -/
theorem filter_and {α : Type} (l : List α) (p q : α → Bool) :
    (l.filter p).filter q = l.filter (fun a => p a && q a) := by
  induction l with
  | nil => rfl
  | cons a t ih =>
    cases hp : p a <;> cases hq : q a <;>
      simp [List.filter_cons, hp, hq, ih]

/-- An equality-filter step is a single filter on the specification-side
criterion test. -/
theorem applyStrFilter_eq (df : List Record) (fs : Filters) (k : String)
    (get : Record → Option String) :
    applyStrFilter df fs k get = df.filter (fun r => matchesKey fs k (get r)) := by
  unfold applyStrFilter matchesKey
  cases fActive fs k with
  | none => simp
  | some v => rfl

/-- An inactive lower bound imposes no constraint. -/
theorem areaMinOk_true (fs : Filters) (hv : fActive fs "claim_area_min" = none) :
    areaMinOk fs = fun _ => true :=
  funext fun r => by simp [areaMinOk, hv]

/-- An active, numeric lower bound is the inclusive `≥` test. -/
theorem areaMinOk_ge (fs : Filters) (v : String) (m : ℚ)
    (hv : fActive fs "claim_area_min" = some v) (hm : parseFloat v = some m) :
    areaMinOk fs = areaGeMin m :=
  funext fun r => by simp [areaMinOk, hv, hm]

/-- An inactive upper bound imposes no constraint. -/
theorem areaMaxOk_true (fs : Filters) (hv : fActive fs "claim_area_max" = none) :
    areaMaxOk fs = fun _ => true :=
  funext fun r => by simp [areaMaxOk, hv]

/-- An active, numeric upper bound is the inclusive `≤` test. -/
theorem areaMaxOk_le (fs : Filters) (v : String) (m : ℚ)
    (hv : fActive fs "claim_area_max" = some v) (hm : parseFloat v = some m) :
    areaMaxOk fs = areaLeMax m :=
  funext fun r => by simp [areaMaxOk, hv, hm]

/-- When the lower-bound step succeeds it is a single filter on the
specification-side bound test. -/
theorem applyAreaMin_ok (l : List Record) (fs : Filters) (out : List Record)
    (h : applyAreaMin l fs = .ok out) : out = l.filter (areaMinOk fs) := by
  unfold applyAreaMin at h
  cases hv : fActive fs "claim_area_min" with
  | none =>
    simp only [hv, Except.ok.injEq] at h
    rw [areaMinOk_true fs hv, ← h]
    simp
  | some v =>
    cases hm : parseFloat v with
    | none => simp [hv, hm] at h
    | some m =>
      simp only [hv, hm, Except.ok.injEq] at h
      rw [areaMinOk_ge fs v m hv hm, ← h]

/-- When the upper-bound step succeeds it is a single filter on the
specification-side bound test. -/
theorem applyAreaMax_ok (l : List Record) (fs : Filters) (out : List Record)
    (h : applyAreaMax l fs = .ok out) : out = l.filter (areaMaxOk fs) := by
  unfold applyAreaMax at h
  cases hv : fActive fs "claim_area_max" with
  | none =>
    simp only [hv, Except.ok.injEq] at h
    rw [areaMaxOk_true fs hv, ← h]
    simp
  | some v =>
    cases hm : parseFloat v with
    | none => simp [hv, hm] at h
    | some m =>
      simp only [hv, hm, Except.ok.injEq] at h
      rw [areaMaxOk_le fs v m hv hm, ← h]

/-- A successful run of the filter block returns exactly one filter pass
with the conjunction of all active criteria. -/
theorem applyFilters_ok (df : List Record) (fs : Filters) (rows : List Record)
    (h : applyFilters df fs = .ok rows) :
    rows = df.filter (satisfiesCriteria fs) := by
  unfold applyFilters at h
  simp only [bind, Except.bind] at h
  cases h7 : applyAreaMin (applyStrFilter (applyStrFilter (applyStrFilter (applyStrFilter
      (applyStrFilter (applyStrFilter df fs "state" (fun r => r.state))
        fs "district" (fun r => r.district)) fs "village" (fun r => r.village))
        fs "fra_type" (fun r => r.fra_type)) fs "status" (fun r => r.status))
        fs "tribal_community" (fun r => r.tribal_community)) fs with
  | error e => rw [h7] at h; cases h
  | ok d7 =>
    rw [h7] at h
    have e7 := applyAreaMin_ok _ _ _ h7
    have e8 := applyAreaMax_ok _ _ _ h
    rw [e8, e7]
    rw [applyStrFilter_eq, applyStrFilter_eq, applyStrFilter_eq, applyStrFilter_eq,
      applyStrFilter_eq, applyStrFilter_eq]
    rw [filter_and, filter_and, filter_and, filter_and, filter_and, filter_and, filter_and]
    refine List.filter_congr ?_
    intro r _
    simp [satisfiesCriteria, Bool.and_assoc]

/-- C1: for every dataset and criteria mapping on which the filter
operation returns, its features are exactly the records of the dataset
satisfying every active criterion — six exact string equalities, the two
inclusive area bounds, null/empty/absent and unrecognized keys ignored,
all combined by logical AND. -/
theorem filtered_claims_match_criteria (df : List Record) (fs : Filters) (out : FCResult)
    (h : getFilteredClaims df fs = .ok out) :
    out.features = df.filter (satisfiesCriteria fs) ∧
    ∀ r, r ∈ out.features ↔ r ∈ df ∧ satisfiesCriteria fs r = true := by
  have hf : out.features = df.filter (satisfiesCriteria fs) := by
    unfold getFilteredClaims at h
    by_cases hd : df.isEmpty
    · rw [if_pos hd] at h
      simp only [Except.ok.injEq] at h
      rw [List.isEmpty_iff] at hd
      subst hd
      simp [← h]
    · rw [if_neg hd] at h
      cases ha : applyFilters df fs with
      | error e => rw [ha] at h; cases h
      | ok rows =>
        rw [ha] at h
        simp only [Except.map, Except.ok.injEq] at h
        rw [← h]
        exact applyFilters_ok df fs rows ha
  refine ⟨hf, fun r => ?_⟩
  rw [hf, List.mem_filter]

/-- C1 witness: the theorem applied to a one-record dataset and an active
state criterion. -/
theorem filtered_claims_match_criteria_witness :
    ({ features := [baseRecord],
       meta := some { total_claims := 1, filters_applied := [("state", some "X")] } } : FCResult).features
      = [baseRecord].filter (satisfiesCriteria [("state", some "X")]) :=
  (filtered_claims_match_criteria [baseRecord] [("state", some "X")] _ rfl).1

/-- C5 counterexample: on the empty dataset the filter result carries no
`total_claims` count and no `filters_applied` echo — the metadata block
is absent (`meta = none`), even though a criterion was supplied. -/
theorem filtered_claims_empty_no_metadata :
    getFilteredClaims ([] : List Record) [("state", some "X")]
      = .ok { features := [], meta := none } := rfl

/-- C5 amended: on every non-empty dataset, a returning filter call
carries the count of matched records and the echo of the applied
criteria mapping alongside the features. -/
theorem filtered_claims_metadata (df : List Record) (fs : Filters) (out : FCResult)
    (hne : df ≠ []) (h : getFilteredClaims df fs = .ok out) :
    out.meta = some { total_claims := out.features.length, filters_applied := fs } := by
  unfold getFilteredClaims at h
  rw [if_neg (by simpa [List.isEmpty_iff] using hne)] at h
  cases ha : applyFilters df fs with
  | error e => rw [ha] at h; cases h
  | ok rows =>
    rw [ha] at h
    simp only [Except.map, Except.ok.injEq] at h
    rw [← h]

/-- C5 witness: the amended theorem applied to a one-record dataset. -/
theorem filtered_claims_metadata_witness :
    ({ features := [baseRecord],
       meta := some { total_claims := 1, filters_applied := [("state", some "X")] } } : FCResult).meta
      = some { total_claims := 1, filters_applied := [("state", some "X")] } :=
  filtered_claims_metadata [baseRecord] [("state", some "X")] _ (by simp) rfl

/-- C2 counterexample: calling the timeline rollup on a one-record store
changes the stored record collection — `get_timeline_analysis` assigns
the converted date column and the derived `submission_year` /
`submission_month` columns back onto `self.df`, so the collection
observed after the call differs from the one observed before it. -/
theorem timeline_mutates_store :
    (getTimelineAnalysisS { rows := [baseRecord], analytics := [] } 2025).2
      ≠ { rows := [baseRecord], analytics := [] } := by decide

/-- C2 amended: every query operation other than the timeline rollup
(filter, lookup, the two grouped rollups, performance metrics,
distinct-value listing) leaves the store unchanged, and calling it again
on the resulting store returns the same result. -/
theorem query_ops_preserve_store (s : Store) (fs : Filters) (cid : String) :
    (getFilteredClaimsS s fs).2 = s ∧
    (getClaimDetailsS s cid).2 = s ∧
    (getStateWiseSummaryS s).2 = s ∧
    (getTribalCommunityAnalysisS s).2 = s ∧
    (getPerformanceMetricsS s).2 = s ∧
    (getFilterOptionsS s).2 = s ∧
    (getFilteredClaimsS ((getFilteredClaimsS s fs).2) fs).1 = (getFilteredClaimsS s fs).1 ∧
    (getClaimDetailsS ((getClaimDetailsS s cid).2) cid).1 = (getClaimDetailsS s cid).1 ∧
    (getStateWiseSummaryS ((getStateWiseSummaryS s).2)).1 = (getStateWiseSummaryS s).1 ∧
    (getTribalCommunityAnalysisS ((getTribalCommunityAnalysisS s).2)).1
      = (getTribalCommunityAnalysisS s).1 ∧
    (getPerformanceMetricsS ((getPerformanceMetricsS s).2)).1 = (getPerformanceMetricsS s).1 ∧
    (getFilterOptionsS ((getFilterOptionsS s).2)).1 = (getFilterOptionsS s).1 :=
  ⟨rfl, rfl, rfl, rfl, rfl, rfl, rfl, rfl, rfl, rfl, rfl, rfl⟩

/-- C6: a record with a null `claim_area_ha` is excluded from the
null-skipping aggregation inputs (so neither any sum nor the mean over
non-null values changes when it is added) and fails both range-filter
tests; every aggregate here is a total function, so no error can arise. -/
theorem null_area_excluded (df : List Record) (r : Record) (h : r.claim_area_ha = none) :
    areaVals (r :: df) = areaVals df ∧
    areaSum (r :: df) = areaSum df ∧
    ∀ m : ℚ, areaGeMin m r = false ∧ areaLeMax m r = false := by
  refine ⟨?_, ?_, fun m => ⟨?_, ?_⟩⟩
  · simp [areaVals, List.filterMap_cons, h]
  · simp [areaSum, List.filterMap_cons, h]
  · simp [areaGeMin, h]
  · simp [areaLeMax, h]

/-- C6 witness: the theorem applied to a record with a null area. -/
theorem null_area_excluded_witness :
    areaVals [{ baseRecord with claim_area_ha := none }] = areaVals [] :=
  (null_area_excluded [] { baseRecord with claim_area_ha := none } rfl).1

/-- C4 counterexample: on an empty dataset `get_performance_metrics`
returns the bare empty mapping, not the ten-field structure with
zero-valued rates that the claim describes. -/
theorem performance_empty_not_zero_struct :
    getPerformanceMetrics [] = PerfResult.empty ∧
    PerfResult.empty ≠ PerfResult.metrics
      { total_claims := 0, approved_claims := 0, pending_claims := 0, rejected_claims := 0,
        approval_rate := 0, pending_rate := 0, total_area_ha := 0,
        average_claim_size_ha := none, field_verification_rate := 0,
        gps_verification_rate := 0 } :=
  ⟨rfl, by decide⟩

/-- C4 amended: with zero records the performance-metrics operation
returns the empty mapping without raising; on any non-empty dataset it
returns the ten-field structure whose counts are the status/flag counts
and whose rates are the rounded percentages `count / total_claims * 100`
(the division is always well-defined there because `total_claims` is
positive), with the mean null exactly when no non-null area exists. -/
theorem performance_metrics_form (df : List Record) :
    (df = [] → getPerformanceMetrics df = PerfResult.empty) ∧
    (df ≠ [] → getPerformanceMetrics df = PerfResult.metrics
      { total_claims := df.length
        approved_claims := (df.filter (fun r => decide (r.status = some "approved"))).length
        pending_claims := (df.filter (fun r =>
          decide (r.status = some "submitted" ∨ r.status = some "under_review" ∨
            r.status = some "field_verification"))).length
        rejected_claims := (df.filter (fun r => decide (r.status = some "rejected"))).length
        approval_rate := round2
          (((df.filter (fun r => decide (r.status = some "approved"))).length : ℚ)
            / (df.length : ℚ) * 100)
        pending_rate := round2
          (((df.filter (fun r =>
              decide (r.status = some "submitted" ∨ r.status = some "under_review" ∨
                r.status = some "field_verification"))).length : ℚ)
            / (df.length : ℚ) * 100)
        total_area_ha := round2 (areaVals df).sum
        average_claim_size_ha :=
          if (areaVals df).length = 0 then none
          else some (round2 ((areaVals df).sum / ((areaVals df).length : ℚ)))
        field_verification_rate := round2
          (((df.filter (fun r => r.field_verification_done)).length : ℚ)
            / (df.length : ℚ) * 100)
        gps_verification_rate := round2
          (((df.filter (fun r => r.gps_coordinates_verified)).length : ℚ)
            / (df.length : ℚ) * 100) }) := by
  constructor
  · intro h; subst h; rfl
  · intro h
    have hlen : 0 < df.length := List.length_pos.mpr h
    unfold getPerformanceMetrics
    rw [if_neg (by simpa [List.isEmpty_iff] using h)]
    simp only [if_pos hlen]

/-- C4 witness: the amended theorem applied to the empty dataset and to
a one-record dataset, the latter exercising the non-empty branch. -/
theorem performance_metrics_form_witness :
    getPerformanceMetrics ([] : List Record) = PerfResult.empty ∧
    getPerformanceMetrics [baseRecord] = PerfResult.metrics
      { total_claims := ([baseRecord] : List Record).length
        approved_claims :=
          ([baseRecord].filter (fun r => decide (r.status = some "approved"))).length
        pending_claims := ([baseRecord].filter (fun r =>
          decide (r.status = some "submitted" ∨ r.status = some "under_review" ∨
            r.status = some "field_verification"))).length
        rejected_claims :=
          ([baseRecord].filter (fun r => decide (r.status = some "rejected"))).length
        approval_rate := round2
          ((([baseRecord].filter (fun r => decide (r.status = some "approved"))).length : ℚ)
            / (([baseRecord] : List Record).length : ℚ) * 100)
        pending_rate := round2
          ((([baseRecord].filter (fun r =>
              decide (r.status = some "submitted" ∨ r.status = some "under_review" ∨
                r.status = some "field_verification"))).length : ℚ)
            / (([baseRecord] : List Record).length : ℚ) * 100)
        total_area_ha := round2 (areaVals [baseRecord]).sum
        average_claim_size_ha :=
          if (areaVals [baseRecord]).length = 0 then none
          else some (round2 ((areaVals [baseRecord]).sum
            / ((areaVals [baseRecord]).length : ℚ)))
        field_verification_rate := round2
          ((([baseRecord].filter (fun r => r.field_verification_done)).length : ℚ)
            / (([baseRecord] : List Record).length : ℚ) * 100)
        gps_verification_rate := round2
          ((([baseRecord].filter (fun r => r.gps_coordinates_verified)).length : ℚ)
            / (([baseRecord] : List Record).length : ℚ) * 100) } :=
  ⟨(performance_metrics_form []).1 rfl,
   (performance_metrics_form [baseRecord]).2 (by simp)⟩

/-- Restricting a list to the entries where an optional projection is
present does not change the projected values. -/
theorem filterMap_filter_isSome {α β : Type} (l : List α) (f : α → Option β) :
    (l.filter (fun x => (f x).isSome)).filterMap f = l.filterMap f := by
  induction l with
  | nil => rfl
  | cons a t ih =>
    cases hf : f a <;> simp [List.filter_cons, List.filterMap_cons, hf, ih]

/-- Restricting to present projections is absorbed by any filter on a
specific projected value. -/
theorem filter_isSome_filter_eq {α β : Type} [DecidableEq β] (l : List α)
    (f : α → Option β) (b : β) :
    (l.filter (fun x => (f x).isSome)).filter (fun x => decide (f x = some b))
      = l.filter (fun x => decide (f x = some b)) := by
  rw [filter_and]
  refine List.filter_congr ?_
  intro x _
  cases hf : f x <;> simp [hf]

/-- Rows with a null `submission_year` contribute nothing to the yearly
rollup: they belong to no year group and carry no year key. -/
theorem yearlyRollup_filter_isSome (l : List Record) :
    yearlyRollup (l.filter (fun r => (r.submission_year).isSome)) = yearlyRollup l := by
  simp only [yearlyRollup]
  rw [filterMap_filter_isSome l (fun r => r.submission_year)]
  refine List.map_congr_left ?_
  intro y _
  rw [filter_isSome_filter_eq l (fun r => r.submission_year) y]

/-- Rows with a null `submission_year` contribute nothing to the monthly
rollup: the current-year restriction already drops them. -/
theorem monthlyRollup_filter_isSome (l : List Record) (cy : Nat) :
    monthlyRollup (l.filter (fun r => (r.submission_year).isSome)) cy = monthlyRollup l cy := by
  simp only [monthlyRollup]
  rw [filter_isSome_filter_eq l (fun r => r.submission_year) cy]

/-- For a row that `pd.to_datetime` accepts, the derived year column is
present exactly when the date itself is. -/
theorem date_year_isSome (r : Record) (h : isInvalidDate r = false) :
    ((addDateCols r).submission_year).isSome = (r.submission_date).isSome := by
  cases hd : r.submission_date with
  | none => simp [addDateCols, hd]
  | some d =>
    cases d with
    | valid y m => simp [addDateCols, hd]
    | invalid s => rw [isInvalidDate, hd] at h; cases h

/-- On a dataset free of unparseable dates, keeping the dated rows and
then deriving the date columns is the same as deriving the columns and
keeping the rows with a present year. -/
theorem key_dates (df : List Record) (h : ∀ r ∈ df, isInvalidDate r = false) :
    (df.filter (fun r => (r.submission_date).isSome)).map addDateCols
      = (df.map addDateCols).filter (fun r => (r.submission_year).isSome) := by
  rw [List.filter_map]
  refine congrArg (List.map addDateCols) ?_
  refine List.filter_congr ?_
  intro r hr
  exact (date_year_isSome r (h r hr)).symm

/-- C3 counterexample: a record with a present but unparseable
`submission_date` makes the timeline operation raise
(`pd.to_datetime` is called with its default raising error mode), so the
record is not silently excluded and the operation does not return a
result. -/
theorem timeline_unparseable_date_errors :
    (getTimelineAnalysis [{ baseRecord with submission_date := some (.invalid "not-a-date") }]
      2025).1 = Except.error dateErr := rfl

/-- C3 amended: when every present `submission_date` is parseable, the
timeline operation returns without error and records with a missing
`submission_date` are excluded from both the yearly and the monthly
rollups; a record with an unparseable date instead makes the whole
operation raise. -/
theorem timeline_missing_dates_excluded (df : List Record) (cy : Nat)
    (h : ∀ r ∈ df, isInvalidDate r = false) :
    (∃ t, (getTimelineAnalysis df cy).1 = Except.ok t) ∧
    yearlyRollup (df.map addDateCols)
      = yearlyRollup ((df.filter (fun r => (r.submission_date).isSome)).map addDateCols) ∧
    monthlyRollup (df.map addDateCols) cy
      = monthlyRollup ((df.filter (fun r => (r.submission_date).isSome)).map addDateCols) cy := by
  refine ⟨?_, ?_, ?_⟩
  · unfold getTimelineAnalysis
    by_cases hd : df.isEmpty
    · rw [if_pos hd]
      exact ⟨.empty, rfl⟩
    · rw [if_neg hd]
      have hno : df.any isInvalidDate = false := by
        rw [List.any_eq_false]
        intro x hx
        simp [h x hx]
      simp only [hno]
      exact ⟨_, rfl⟩
  · rw [key_dates df h, yearlyRollup_filter_isSome]
  · rw [key_dates df h, monthlyRollup_filter_isSome]

/-- C3 witness: the amended theorem applied to a one-record dataset with
a parseable date. -/
theorem timeline_missing_dates_excluded_witness :
    yearlyRollup ([baseRecord].map addDateCols)
      = yearlyRollup (([baseRecord].filter
          (fun r => (r.submission_date).isSome)).map addDateCols) :=
  (timeline_missing_dates_excluded [baseRecord] 2025 (by decide)).2.1

/-- Sum of a pointwise sum of two maps splits. -/
theorem sum_map_add {β : Type} (d : List β) (f g : β → Nat) :
    (d.map (fun b => f b + g b)).sum = (d.map f).sum + (d.map g).sum := by
  induction d with
  | nil => rfl
  | cons c d' ih =>
    simp only [List.map_cons, List.sum_cons, ih]
    omega

/-- An indicator for a value absent from the list sums to zero. -/
theorem sum_map_indicator_zero {β : Type} [DecidableEq β] (d : List β) (a : β)
    (ha : a ∉ d) :
    (d.map (fun b => if a = b then (1 : Nat) else 0)).sum = 0 := by
  induction d with
  | nil => rfl
  | cons c d' ih =>
    have h1 : a ≠ c := fun h => ha (h ▸ List.mem_cons_self c d')
    have h2 : a ∉ d' := fun h => ha (List.mem_cons_of_mem c h)
    simp [h1, ih h2]

/-- An indicator for a value occurring in a duplicate-free list sums to
one. -/
theorem sum_map_indicator {β : Type} [DecidableEq β] (d : List β) (a : β)
    (hnd : d.Nodup) (ha : a ∈ d) :
    (d.map (fun b => if a = b then (1 : Nat) else 0)).sum = 1 := by
  induction d with
  | nil => cases ha
  | cons c d' ih =>
    rcases List.mem_cons.mp ha with h | h
    · subst h
      simp [sum_map_indicator_zero d' a (List.nodup_cons.mp hnd).1]
    · have h1 : a ≠ c := by
        rintro rfl
        exact (List.nodup_cons.mp hnd).1 h
      simp [h1, ih (List.nodup_cons.mp hnd).2 h]

/-- Occurrences of a value among the present projections are the rows
whose projection is exactly that value. -/
theorem count_filterMap_eq_length_filter {α β : Type} [DecidableEq β] (l : List α)
    (f : α → Option β) (b : β) :
    (l.filterMap f).count b = (l.filter (fun x => decide (f x = some b))).length := by
  induction l with
  | nil => rfl
  | cons a t ih =>
    cases hf : f a with
    | none => simp [List.filterMap_cons, hf, List.filter_cons, ih]
    | some c =>
      by_cases hc : c = b
      · subst hc
        simp [List.filterMap_cons, hf, List.filter_cons, List.count_cons, ih]
      · simp [List.filterMap_cons, hf, List.filter_cons, List.count_cons, hc, ih]

/-- Summing each distinct value's multiplicity recovers the length. -/
theorem sum_dedup_count {β : Type} [DecidableEq β] (l : List β) :
    ((l.dedup).map (fun b => l.count b)).sum = l.length := by
  induction l with
  | nil => rfl
  | cons a t ih =>
    have expand : (t.dedup).map (fun b => (a :: t).count b)
        = (t.dedup).map (fun b => t.count b + if a = b then 1 else 0) := by
      refine List.map_congr_left ?_
      intro b _
      rw [List.count_cons]
      simp
    by_cases hm : a ∈ t
    · rw [List.dedup_cons_of_mem hm, expand, sum_map_add, ih,
        sum_map_indicator t.dedup a (List.nodup_dedup t) (List.mem_dedup.mpr hm)]
      simp
    · rw [List.dedup_cons_of_not_mem hm, List.map_cons, List.sum_cons, expand,
        sum_map_add, ih, sum_map_indicator_zero t.dedup a (fun hc => hm (List.mem_dedup.mp hc)),
        List.count_cons, List.count_eq_zero.mpr hm]
      simp
      omega

/-- Summing the group sizes of a grouped rollup over all groups recovers
the dataset size, provided every row has a group key. -/
theorem groupBy_total (df : List Record) (key : Record → Option String)
    (h : ∀ r ∈ df, (key r).isSome) :
    ((groupBy df key).map (fun p => (rollupEntry p.2).total_claims)).sum = df.length := by
  unfold groupBy
  rw [List.map_map]
  have e1 : ((df.filterMap key).dedup).map
      ((fun p => (rollupEntry p.2).total_claims) ∘
        (fun v => (v, df.filter (fun r => decide (key r = some v)))))
      = ((df.filterMap key).dedup).map (fun v => (df.filterMap key).count v) := by
    refine List.map_congr_left ?_
    intro v _
    simp [rollupEntry, count_filterMap_eq_length_filter]
  rw [e1, sum_dedup_count]
  exact List.filterMap_length_eq_length.mpr h

/-- Membership in the `value_counts` dictionary of a group: exactly the
occurring types, each with its multiplicity. -/
theorem mem_typeCounts (g : List Record) (t : String) (n : Nat) :
    (t, n) ∈ typeCounts g ↔
      (t ∈ g.filterMap (fun r => r.fra_type) ∧
       n = (g.filterMap (fun r => r.fra_type)).count t) := by
  unfold typeCounts
  rw [List.mem_map]
  constructor
  · rintro ⟨t', ht', he⟩
    rw [Prod.ext_iff] at he
    obtain ⟨h1, h2⟩ := he
    subst h1
    exact ⟨List.mem_dedup.mp ht', h2.symm⟩
  · rintro ⟨ht, rfl⟩
    exact ⟨t, List.mem_dedup.mpr ht, rfl⟩

/-- Each entry of a grouped rollup satisfies the specification-side
description of its group. -/
theorem groupBy_entry_correct (df : List Record) (key : Record → Option String)
    (v : String) (e : RollupEntry)
    (hme : (v, e) ∈ (groupBy df key).map (fun p => (p.1, rollupEntry p.2))) :
    entrySpec df key v e := by
  rw [List.mem_map] at hme
  obtain ⟨p, hp, he⟩ := hme
  unfold groupBy at hp
  rw [List.mem_map] at hp
  obtain ⟨v', hv', hpe⟩ := hp
  subst hpe
  simp only [Prod.ext_iff] at he
  obtain ⟨h1, h2⟩ := he
  subst h1
  subst h2
  refine ⟨rfl, rfl, rfl, ?_⟩
  intro t n
  show (t, n) ∈ typeCounts (df.filter (fun r => decide (key r = some v'))) ↔ _
  rw [mem_typeCounts, count_filterMap_eq_length_filter, List.mem_filterMap]
  constructor
  · rintro ⟨⟨a, ha, hfa⟩, rfl⟩
    rw [List.mem_filter] at ha
    obtain ⟨ha1, ha2⟩ := ha
    exact ⟨⟨a, ha1, by simpa using ha2, hfa⟩, rfl⟩
  · rintro ⟨⟨r, hr, hkr, hfr⟩, rfl⟩
    exact ⟨⟨r, List.mem_filter.mpr ⟨hr, by simp [hkr]⟩, hfr⟩, rfl⟩

/-- C7: for both grouping keys, every emitted group entry holds the
group's record count, its null-excluded area sum, its approved count and
its per-type counts; and when every record carries the group key, the
group sizes sum to the dataset's total record count. -/
theorem rollup_group_counts (df : List Record)
    (hs : ∀ r ∈ df, (r.state).isSome) (ht : ∀ r ∈ df, (r.tribal_community).isSome) :
    ((getStateWiseSummary df).map (fun p => p.2.total_claims)).sum = df.length ∧
    ((getTribalCommunityAnalysis df).map (fun p => p.2.total_claims)).sum = df.length ∧
    (∀ v e, (v, e) ∈ getStateWiseSummary df → entrySpec df (fun r => r.state) v e) ∧
    (∀ v e, (v, e) ∈ getTribalCommunityAnalysis df →
      entrySpec df (fun r => r.tribal_community) v e) := by
  refine ⟨?_, ?_, ?_, ?_⟩
  · unfold getStateWiseSummary
    rw [List.map_map]
    exact groupBy_total df (fun r => r.state) hs
  · unfold getTribalCommunityAnalysis
    rw [List.map_map]
    exact groupBy_total df (fun r => r.tribal_community) ht
  · intro v e hme
    exact groupBy_entry_correct df (fun r => r.state) v e hme
  · intro v e hme
    exact groupBy_entry_correct df (fun r => r.tribal_community) v e hme

/-- C7 witness: the theorem applied to a one-record dataset. -/
theorem rollup_group_counts_witness :
    ((getStateWiseSummary [baseRecord]).map (fun p => p.2.total_claims)).sum
      = ([baseRecord] : List Record).length :=
  (rollup_group_counts [baseRecord] (by decide) (by decide)).1

/-- A key carried by no entry is absent from the dictionary. -/
theorem fGet_eq_none (fs : Filters) (k : String) (h : ∀ p ∈ fs, p.1 ≠ k) :
    fGet fs k = none := by
  unfold fGet
  have : fs.find? (fun p => p.1 = k) = none :=
    List.find?_eq_none.mpr (fun x hx => by simp [h x hx])
  rw [this]
  rfl

/-- On a duplicate-key-free dictionary, the route-side cleaning of falsy
values does not change which criteria are active: a falsy value is
inactive whether its key is removed or kept. -/
theorem fActive_cleanFilters (fs : Filters) (k : String)
    (hnd : (fs.map Prod.fst).Nodup) :
    fActive (cleanFilters fs) k = fActive fs k := by
  induction fs with
  | nil => rfl
  | cons p t ih =>
    obtain ⟨k', v'⟩ := p
    have hnd' : (t.map Prod.fst).Nodup := (List.nodup_cons.mp (by simpa using hnd)).2
    have hkt : k' ∉ t.map Prod.fst := (List.nodup_cons.mp (by simpa using hnd)).1
    have hclean_none : ∀ p₂, p₂ ∈ cleanFilters t → p₂.1 ≠ k' := by
      intro p₂ hp₂ hpk
      have hpt : p₂ ∈ t := (List.mem_filter.mp hp₂).1
      exact hkt (hpk ▸ List.mem_map_of_mem Prod.fst hpt)
    by_cases hk : k' = k
    · subst hk
      cases v' with
      | none =>
        have h1 : fActive ((k', none) :: t) k' = none := by
          unfold fActive fGet
          simp [List.find?]
        have hc : cleanFilters ((k', (none : Option String)) :: t) = cleanFilters t := by
          simp [cleanFilters, List.filter_cons]
        rw [h1, hc]
        unfold fActive
        rw [fGet_eq_none _ _ hclean_none]
      | some v =>
        by_cases hv : v = ""
        · subst hv
          have h1 : fActive ((k', some "") :: t) k' = none := by
            unfold fActive fGet
            simp [List.find?]
          have hc : cleanFilters ((k', some "") :: t) = cleanFilters t := by
            simp [cleanFilters, List.filter_cons]
          rw [h1, hc]
          unfold fActive
          rw [fGet_eq_none _ _ hclean_none]
        · have hc : cleanFilters ((k', some v) :: t) = (k', some v) :: cleanFilters t := by
            simp [cleanFilters, List.filter_cons, hv]
          rw [hc]
          unfold fActive fGet
          simp [List.find?]
    · have e1 : fActive ((k', v') :: t) k = fActive t k := by
        unfold fActive fGet
        simp [List.find?, hk]
      have e2 : fActive (cleanFilters ((k', v') :: t)) k = fActive (cleanFilters t) k := by
        cases v' with
        | none => simp [cleanFilters, List.filter_cons]
        | some v =>
          by_cases hv : v = ""
          · simp [cleanFilters, List.filter_cons, hv]
          · have hc : cleanFilters ((k', some v) :: t) = (k', some v) :: cleanFilters t := by
              simp [cleanFilters, List.filter_cons, hv]
            rw [hc]
            unfold fActive fGet
            simp [List.find?, hk]
      rw [e1, e2, ih hnd']

/-- C8 counterexample: on an empty dataset, a non-numeric
`claim_area_min` is never examined — the early return fires before any
bound is parsed — so the route answers with the ordinary empty
collection instead of the request-level error the claim requires. -/
theorem bad_bound_empty_dataset_no_error :
    getClaims emptyStore
      { state := none, district := none, village := none, fra_type := none,
        status := none, tribal_community := none,
        claim_area_min := some "abc", claim_area_max := none }
      = (ApiResp.ok { features := [], meta := none }, emptyStore) := rfl

/-- The eight keys the routes assemble are pairwise distinct. -/
theorem buildFilters_keys_nodup (q : QueryParams) :
    ((buildFilters q).map Prod.fst).Nodup := by
  have hkeys : (buildFilters q).map Prod.fst
      = ["state", "district", "village", "fra_type", "status",
         "tribal_community", "claim_area_min", "claim_area_max"] := rfl
  rw [hkeys]
  decide

/-- A truthy `claim_area_min` query parameter survives the route-side
cleaning as an active criterion. -/
theorem fActive_route_min (q : QueryParams) (v : String)
    (hqv : q.claim_area_min = some v) (hv : v ≠ "") :
    fActive (cleanFilters (buildFilters q)) "claim_area_min" = some v := by
  rw [fActive_cleanFilters _ _ (buildFilters_keys_nodup q)]
  unfold fActive fGet buildFilters
  simp [List.find?, hqv, hv]

/-- A truthy `claim_area_max` query parameter survives the route-side
cleaning as an active criterion. -/
theorem fActive_route_max (q : QueryParams) (v : String)
    (hqv : q.claim_area_max = some v) (hv : v ≠ "") :
    fActive (cleanFilters (buildFilters q)) "claim_area_max" = some v := by
  rw [fActive_cleanFilters _ _ (buildFilters_keys_nodup q)]
  unfold fActive fGet buildFilters
  simp [List.find?, hqv, hv]

/-- An active non-numeric lower bound aborts the filter chain with the
float conversion error. -/
theorem applyFilters_min_error (df : List Record) (fs : Filters) (v : String)
    (hmin : fActive fs "claim_area_min" = some v) (hp : parseFloat v = none) :
    applyFilters df fs = .error (floatErr v) := by
  unfold applyFilters applyAreaMin
  simp only [hmin, hp]
  rfl

/-- With no lower bound active, an active non-numeric upper bound aborts
the filter chain with the float conversion error. -/
theorem applyFilters_max_error_noMin (df : List Record) (fs : Filters) (v : String)
    (hmn : fActive fs "claim_area_min" = none)
    (hmax : fActive fs "claim_area_max" = some v) (hp : parseFloat v = none) :
    applyFilters df fs = .error (floatErr v) := by
  unfold applyFilters applyAreaMin applyAreaMax
  simp only [hmn, hmax, hp]
  rfl

/-- With a numeric lower bound active, an active non-numeric upper bound
aborts the filter chain with the float conversion error. -/
theorem applyFilters_max_error_minOk (df : List Record) (fs : Filters) (v w : String)
    (m : ℚ) (hmn : fActive fs "claim_area_min" = some w) (hpw : parseFloat w = some m)
    (hmax : fActive fs "claim_area_max" = some v) (hp : parseFloat v = none) :
    applyFilters df fs = .error (floatErr v) := by
  unfold applyFilters applyAreaMin applyAreaMax
  simp only [hmn, hpw, hmax, hp]
  rfl

/-- When the filter chain raises on a non-empty dataset, the claims route
converts the exception into its error body and the store is untouched. -/
theorem getClaims_route_error (s : Store) (q : QueryParams) (msg : String)
    (hne : s.rows ≠ [])
    (he : applyFilters s.rows (cleanFilters (buildFilters q)) = .error msg) :
    (getClaims s q).1 = ApiResp.err ("Error loading claims: " ++ msg) ∧
    (getClaims s q).2 = s := by
  have herr : getFilteredClaims s.rows (cleanFilters (buildFilters q)) = .error msg := by
    unfold getFilteredClaims
    rw [if_neg (by simpa [List.isEmpty_iff] using hne), he]
    rfl
  unfold getClaims
  rw [herr]
  exact ⟨rfl, rfl⟩

/-- C8 amended: on a non-empty dataset, a non-numeric value supplied for
`claim_area_min` or for `claim_area_max` makes the route answer with a
request-level error carrying the float conversion message of a
non-numeric bound (the lower bound's message when both fail, since it is
parsed first), and the stored dataset is left unchanged — no partial
result is produced. -/
theorem bad_area_bound_reports_error (s : Store) (q : QueryParams) (v : String)
    (hne : s.rows ≠ [])
    (hqv : q.claim_area_min = some v ∨ q.claim_area_max = some v)
    (hv : v ≠ "") (hp : parseFloat v = none) :
    (∃ w, parseFloat w = none ∧
      (getClaims s q).1 = ApiResp.err ("Error loading claims: " ++ floatErr w)) ∧
    (getClaims s q).2 = s := by
  rcases hqv with hqv | hqv
  · have hmin := fActive_route_min q v hqv hv
    have hr := getClaims_route_error s q (floatErr v) hne
      (applyFilters_min_error s.rows _ v hmin hp)
    exact ⟨⟨v, hp, hr.1⟩, hr.2⟩
  · have hmax := fActive_route_max q v hqv hv
    cases hhm : fActive (cleanFilters (buildFilters q)) "claim_area_min" with
    | none =>
      have hr := getClaims_route_error s q (floatErr v) hne
        (applyFilters_max_error_noMin s.rows _ v hhm hmax hp)
      exact ⟨⟨v, hp, hr.1⟩, hr.2⟩
    | some w =>
      cases hpw : parseFloat w with
      | none =>
        have hr := getClaims_route_error s q (floatErr w) hne
          (applyFilters_min_error s.rows _ w hhm hpw)
        exact ⟨⟨w, hpw, hr.1⟩, hr.2⟩
      | some m =>
        have hr := getClaims_route_error s q (floatErr v) hne
          (applyFilters_max_error_minOk s.rows _ v w m hhm hpw hmax hp)
        exact ⟨⟨v, hp, hr.1⟩, hr.2⟩

/-- C8 witness: the amended theorem applied to a one-record store with a
non-numeric `claim_area_max` (and no lower bound supplied). -/
theorem bad_area_bound_reports_error_witness :
    (∃ w, parseFloat w = none ∧
      (getClaims { rows := [baseRecord], analytics := [] }
        { state := none, district := none, village := none, fra_type := none,
          status := none, tribal_community := none,
          claim_area_min := none, claim_area_max := some "abc" }).1
        = ApiResp.err ("Error loading claims: " ++ floatErr w)) ∧
    (getClaims { rows := [baseRecord], analytics := [] }
      { state := none, district := none, village := none, fra_type := none,
        status := none, tribal_community := none,
        claim_area_min := none, claim_area_max := some "abc" }).2
      = { rows := [baseRecord], analytics := [] } :=
  bad_area_bound_reports_error { rows := [baseRecord], analytics := [] }
    { state := none, district := none, village := none, fra_type := none,
      status := none, tribal_community := none,
      claim_area_min := none, claim_area_max := some "abc" }
    "abc" (by simp) (Or.inr rfl) (by decide) (by decide)

/-- C9: if either input file is missing, unreadable or malformed, the
store is still constructed — with zero records and an empty statistics
blob — and the failure is logged; no error propagates (the constructor
is a total function). -/
theorem load_data_fail_open (g : Except String (List Feature))
    (a : Except String Analytics)
    (h : (∃ e, g = Except.error e) ∨ (∃ e, a = Except.error e)) :
    (loadData g a).1.rows = [] ∧ (loadData g a).1.analytics = ([] : List (String × String)) ∧
    ((loadData g a).2).isSome = true := by
  rcases h with ⟨e, rfl⟩ | ⟨e, he⟩
  · exact ⟨rfl, rfl, rfl⟩
  · subst he
    cases g with
    | error e' => exact ⟨rfl, rfl, rfl⟩
    | ok feats => exact ⟨rfl, rfl, rfl⟩

/-- C9 witness: a missing geometry file with a readable analytics file. -/
theorem load_data_fail_open_witness :
    (loadData (Except.error "missing file") (Except.ok ([] : List (String × String)))).1.rows
      = [] :=
  (load_data_fail_open (Except.error "missing file") (Except.ok [])
    (Or.inl ⟨"missing file", rfl⟩)).1

/-- The sorted deduplication used by the filter-options route meets the
distinct-value description. -/
theorem sortedUnique_spec (l : List String) : distinctSpec l (sortedUnique l) := by
  refine ⟨List.sorted_insertionSort _ _, ?_, ?_⟩
  · exact (List.perm_insertionSort _ _).nodup_iff.mpr (List.nodup_dedup l)
  · intro x
    unfold sortedUnique
    rw [(List.perm_insertionSort _ _).mem_iff, List.mem_dedup]

/-- C10 counterexample: on an empty dataset the filter-options route
returns the bare empty mapping, not a mapping of six empty lists. -/
theorem filter_options_empty_not_lists :
    getFilterOptions [] ≠ OptionsResp.options
      { states := [], districts := [], villages := [], fra_types := [],
        statuses := [], tribal_communities := [] } := by decide

/-- C10 amended: on the empty dataset the route returns the empty
mapping; on a non-empty dataset (whose six string fields are present, the
situation in which the embedding is faithful) it returns, for each field,
the sorted duplicate-free list of exactly the values occurring in the
dataset. -/
theorem filter_options_spec (df : List Record)
    (hf : ∀ r ∈ df, (r.state).isSome ∧ (r.district).isSome ∧ (r.village).isSome ∧
      (r.fra_type).isSome ∧ (r.status).isSome ∧ (r.tribal_community).isSome) :
    (df = [] → getFilterOptions df = .empty) ∧
    ∀ o, getFilterOptions df = .options o →
      distinctSpec (df.filterMap (fun r => r.state)) o.states ∧
      distinctSpec (df.filterMap (fun r => r.district)) o.districts ∧
      distinctSpec (df.filterMap (fun r => r.village)) o.villages ∧
      distinctSpec (df.filterMap (fun r => r.fra_type)) o.fra_types ∧
      distinctSpec (df.filterMap (fun r => r.status)) o.statuses ∧
      distinctSpec (df.filterMap (fun r => r.tribal_community)) o.tribal_communities := by
  constructor
  · intro h
    subst h
    rfl
  · intro o ho
    unfold getFilterOptions at ho
    by_cases hd : df.isEmpty
    · rw [if_pos hd] at ho
      cases ho
    · rw [if_neg hd] at ho
      simp only [OptionsResp.options.injEq] at ho
      subst ho
      exact ⟨sortedUnique_spec _, sortedUnique_spec _, sortedUnique_spec _,
        sortedUnique_spec _, sortedUnique_spec _, sortedUnique_spec _⟩

/-- C10 witness: the amended theorem applied to a one-record dataset. -/
theorem filter_options_spec_witness :
    distinctSpec ([baseRecord].filterMap (fun r => r.state)) ["X"] :=
  ((filter_options_spec [baseRecord] (by decide)).2
    { states := ["X"], districts := ["D"], villages := ["V"], fra_types := ["IFR"],
      statuses := ["approved"], tribal_communities := ["T"] } rfl).1
